import Mathlib

/-!
Verification of the Question-Solving Orchestration Pipeline
(`backend/question_solver`): a shallow embedding in Lean 4 of the
orchestrator (`views.py`, `QuestionSolverView`) and its collaborating
services (`search_service.py`, `web_scraper.py`, `text_processing.py`,
`confidence_service.py`), together with theorems settling the spec claims.

Modelling conventions:
* Python dicts whose keys may be absent are structures with `Option` fields;
  a raw `d['k']` access on a possibly-missing key is an `Except`-error
  (Python `KeyError`), while `d.get('k', v)` is `Option.getD`.
* External collaborators (network, OCR engine, translator, language
  detector, HTML parsing) are oracle values or functions supplied as
  parameters; everything the repository's own code does with their results
  is translated faithfully from the source.
* Machine floats are modelled as exact rationals (`ℚ`); Python's
  `round(x, 2)` is modelled as rounding to an integer number of hundredths.
-/

namespace QSolver

/-! ### String helpers

Python's `needle in haystack` substring test, modelled on character lists. -/

/-- `hasSubstr needle hay` decides whether `needle` occurs as a contiguous
sublist of `hay` (Python's `needle in hay` for strings). -/
def hasSubstr : List Char → List Char → Bool
  | needle, [] => needle.isEmpty
  | needle, c :: t => needle.isPrefixOf (c :: t) || hasSubstr needle t

/-- Substring containment on `String` (Python `needle in hay`). -/
def strContains (hay needle : String) : Bool :=
  hasSubstr needle.toList hay.toList

/-- Python's `str.lower()` (character-wise; the domains involved are
ASCII). Defined over the character list so it reduces definitionally. -/
def strLower (s : String) : String := ⟨s.toList.map Char.toLower⟩

/-- Python's `str.endswith(t)`, defined over character lists. -/
def strEndsWith (s t : String) : Bool := t.toList.isSuffixOf s.toList

/-- Python's `str.strip()` (whitespace at both ends), over character
lists. -/
def strTrim (s : String) : String :=
  ⟨(((s.toList.dropWhile Char.isWhitespace).reverse.dropWhile
      Char.isWhitespace).reverse)⟩

/-! ### Data model: search results

A search-result entry is a Python dict produced by `SearchService`; the
trust fields are added later by `filter_trusted_domains`, so they are
`Option`-valued (key may be absent). -/

/-- A search-result dict (`{title, url, snippet, domain}` plus the trust
fields added by `filter_trusted_domains`). -/
structure SResult where
  title : Option String := none
  url : Option String := none
  snippet : Option String := none
  domain : Option String := none
  trust_score : Option ℕ := none
  is_trusted : Option Bool := none
  deriving Repr, DecidableEq

/-! ### `SearchService._calculate_trust_score` (search_service.py:241-267) -/

/-- The curated trusted-domain list (`SearchService.trusted_domains`). -/
def trusted_domains : List String :=
  ["stackoverflow.com", "geeksforgeeks.org", "tutorialspoint.com",
   "w3schools.com", "khanacademy.org", "mathway.com", "symbolab.com",
   "chegg.com", "toppr.com", "byjus.com", "vedantu.com", "unacademy.com",
   "physics.stackexchange.com", "math.stackexchange.com",
   "chemistry.stackexchange.com", "quora.com", "doubtnut.com",
   "meritnation.com"]

/-- The learning-related keywords of the reputable-domain heuristic. -/
def learningKeywords : List String := ["learn", "study", "education", "tutorial"]

/-- `SearchService._calculate_trust_score`: trust score of a domain string.
Each branch is a Python substring test (`in`), translated as such. -/
def calculate_trust_score (domain : String) : ℕ :=
  if domain = "" then 0
  else if trusted_domains.any (fun t => strContains (strLower domain) t) then 90
  else if strContains domain ".edu" then 80
  else if strContains domain ".gov" || strContains domain ".ac." then 75
  else if learningKeywords.any (fun k => strContains (strLower domain) k) then 60
  else 40

/-- The trust-score function as the claim words it (C5): exact membership in
the curated list, suffix tests for the TLD branches. Stated for comparison
with `calculate_trust_score`; not part of the source. -/
def claimTrustScore (domain : String) : ℕ :=
  if domain = "" then 0
  else if domain ∈ trusted_domains then 90
  else if strEndsWith domain ".edu" then 80
  else if strEndsWith domain ".gov" || strEndsWith domain ".ac"
          || strContains domain ".ac." then 75
  else if learningKeywords.any (fun k => strContains (strLower domain) k) then 60
  else 40

/-! ### `QuestionSolverView._deduplicate_results` (views.py:304-317) -/

/-- The loop body of `_deduplicate_results`: walk the list keeping the first
occurrence of each non-empty URL, threading the `seen_urls` set. -/
def dedupGo : List SResult → List String → List SResult
  | [], _ => []
  | r :: rest, seen =>
    let url := r.url.getD ""
    if url ≠ "" ∧ url ∉ seen then r :: dedupGo rest (url :: seen)
    else dedupGo rest seen

/-- `QuestionSolverView._deduplicate_results`: drop entries whose
`url` (default `''`) is empty or already seen. -/
def deduplicate_results (results : List SResult) : List SResult :=
  dedupGo results []

/-! ### `SearchService.filter_trusted_domains` (search_service.py:203-230) -/

/-- Sort key used by `filter_trusted_domains` (`x['trust_score']`; the key
is always present on the list being sorted, so the default is inert). -/
def scoreOf (r : SResult) : ℕ := r.trust_score.getD 0

/-- The comparison `filtered.sort(key=..., reverse=True)` sorts by:
`a` may precede `b` iff `scoreOf b ≤ scoreOf a` (descending). -/
def trustGE (a b : SResult) : Prop := scoreOf b ≤ scoreOf a

instance : DecidableRel trustGE := fun a b => Nat.decLe (scoreOf b) (scoreOf a)

instance : IsTotal SResult trustGE := ⟨fun a b => Nat.le_total (scoreOf b) (scoreOf a)⟩

instance : IsTrans SResult trustGE :=
  ⟨fun _ _ _ h h' => Nat.le_trans h' h⟩

/-- Unfolding lemma for `trustGE` on concrete arguments. -/
theorem trustGE_def (a b : SResult) : trustGE a b ↔ scoreOf b ≤ scoreOf a := Iff.rfl

/-- The return value of `filter_trusted_domains`. -/
structure FilteredResults where
  results : List SResult
  trusted_count : ℕ
  deriving Repr, DecidableEq

/-- The per-result mutation in the `filter_trusted_domains` loop: derive the
trust score from `r.get('domain', '')` and set both trust fields. -/
def scoreResult (r : SResult) : SResult :=
  let ts := calculate_trust_score (r.domain.getD "")
  { r with trust_score := some ts, is_trusted := some (decide (ts > 50)) }

/-- `SearchService.filter_trusted_domains`: score every result, sort
descending by trust score (Python's `list.sort` is stable; modelled by the
stable insertion sort, which is extensionally the unique stable sort), and
count the trusted entries. -/
def filter_trusted_domains (results : List SResult) : FilteredResults :=
  let filtered := results.map scoreResult
  let sorted := filtered.insertionSort trustGE
  { results := sorted
    trusted_count := sorted.countP (fun r => r.is_trusted.getD false) }

/-! ### `WebScraperService` (web_scraper.py)

The network fetch and the BeautifulSoup text extraction are external; a
per-URL oracle supplies each URL's outcome. `fetch_url_content` itself
catches every exception and returns a failure dict, and the collection
loop in `fetch_multiple_urls` additionally catches per-future errors
(`future.result` timeouts), producing the same failure shape; completion
order is modelled as submission order (the claims proved about the batch
are order-insensitive). -/

/-- A `FetchedPage` dict as built by `web_scraper.py` (the `length` key is
present only on success, `error` only on failure). -/
structure FetchedPage where
  success : Bool
  url : String
  title : String := ""
  content : String := ""
  error : Option String := none
  length : Option ℕ := none
  deriving Repr, DecidableEq

/-- Outcome of handling one URL: the page text extraction succeeded
(title and soup-extracted text), `fetch_url_content` caught an exception,
or the future itself failed (`future.result` timeout) in the collection
loop of `fetch_multiple_urls`. -/
inductive FetchOutcome where
  | page (title text : String)
  | fetchError (e : String)
  | futureError (e : String)
  deriving Repr, DecidableEq

/-- `WebScraperService.fetch_url_content` given the external outcome for
its URL: on success truncate the extracted text to 800 characters (with an
ellipsis), on any exception return the failure dict. -/
def fetch_url_content (oracle : String → FetchOutcome) (url : String) :
    FetchedPage :=
  match oracle url with
  | .page title text =>
    let text := if text.length > 800 then (text.toList.take 800).asString ++ "..." else text
    { success := true, title := title, content := text, url := url,
      length := some text.length }
  | .fetchError e =>
    { success := false, error := some e, url := url }
  | .futureError e =>
    -- a future-level failure is surfaced by the caller's collection loop,
    -- which builds the identical failure dict (web_scraper.py:127-133)
    { success := false, error := some e, url := url }

/-- `WebScraperService.fetch_multiple_urls`: truncate the URL list to
`max_concurrent` (`urls[:max_concurrent]`), fetch each and collect one
entry per fetched URL. -/
def fetch_multiple_urls (oracle : String → FetchOutcome) (urls : List String)
    (max_concurrent : ℕ) : List FetchedPage :=
  (urls.take max_concurrent).map (fetch_url_content oracle)

/-! ### `SearchService.search_searchapi` (search_service.py:50-122)

The HTTP request and JSON decode are an oracle; the result-list assembly,
the mock fallback and the cache discipline are translated from the source.
`cache_service.py` is imported by the source but absent from the
repository snapshot, so the store itself is modelled from the spec. -/

/-- One entry of the provider's `organic_results` array (`item.get(...)`). -/
structure RawItem where
  title : Option String := none
  link : Option String := none
  snippet : Option String := none
  deriving Repr, DecidableEq

/-- The dict returned by the search methods: success shape
`{success, results, query, source}` (plus `warning` for mock data),
failure shape `{success, error, results}`. -/
structure SearchResp where
  success : Bool
  results : List SResult
  query : Option String := none
  source : Option String := none
  error : Option String := none
  warning : Option String := none
  deriving Repr, DecidableEq

/-- Modelled from the spec: `cache_service.search_cache` (absent from the
sources) — per spec §9 a module-level key-value store accessed with
`get`/`set` by key lookup, no update-in-place semantics. Modelled as a
partial map from key strings to cached responses. -/
def SearchCache : Type := String → Option SearchResp

/-- Modelled from the spec: `search_cache.get` is key lookup. -/
def SearchCache.get (c : SearchCache) (k : String) : Option SearchResp := c k

/-- Modelled from the spec: `search_cache.set` binds a key. -/
def SearchCache.set (c : SearchCache) (k : String) (v : SearchResp) : SearchCache :=
  fun k' => if k' = k then some v else c k'

/-- The cache key `f"{query}_{count}"` of `search_searchapi`. -/
def cacheKey (query : String) (count : ℕ) : String :=
  query ++ "_" ++ toString count

/-- `SearchService._mock_search_results`: fixed two-entry result set used
when no API key is configured. -/
def mock_search_results (query : String) : SearchResp :=
  { success := true
    results :=
      [{ title := some ("Solution for: " ++ query),
         url := some "https://example.com/solution1",
         snippet := some ("Complete solution and explanation for " ++ query ++ "..."),
         domain := some "example.com", trust_score := some 50,
         is_trusted := some false },
       { title := some ("Step by step guide: " ++ query),
         url := some "https://stackoverflow.com/solution2",
         snippet := some "Detailed step-by-step solution...",
         domain := some "stackoverflow.com", trust_score := some 90,
         is_trusted := some true }]
    query := some query
    source := some "mock"
    warning := some "Using mock data - API keys not configured" }

/-- `SearchService.search_searchapi`. Parameters: whether an API key is
configured, the external `urlparse`-based `_extract_domain`, and the
network outcome (`.error` for a request exception, `.ok none` when the
JSON has no `organic_results` key, `.ok (some items)` otherwise). Returns
the response dict, the cache after the call, and whether the network was
consulted. The source wraps cache `get`/`set` in `try/except` blocks that
swallow cache errors; the modelled store never fails. A cached dict is
always non-empty, so Python's `if cached_result:` truthiness test is a
presence test. -/
def search_searchapi (hasKey : Bool) (extractDomain : String → String)
    (network : Except String (Option (List RawItem))) (query : String)
    (count : ℕ) (cache : SearchCache) : SearchResp × SearchCache × Bool :=
  if ¬hasKey then (mock_search_results query, cache, false)
  else
    match cache.get (cacheKey query count) with
    | some cached => (cached, cache, false)
    | none =>
      match network with
      | .error e => ({ success := false, error := some e, results := [] }, cache, true)
      | .ok organic =>
        let results : List SResult :=
          match organic with
          | none => []
          | some items =>
            (items.take count).map fun it =>
              { title := some (it.title.getD ""),
                url := some (it.link.getD ""),
                snippet := some (it.snippet.getD ""),
                domain := some (extractDomain (it.link.getD "")) }
        let result : SearchResp :=
          { success := true, results := results, query := some query,
            source := some "searchapi" }
        (result, cache.set (cacheKey query count) result, true)

/-! ### `ConfidenceScoreService` (confidence_service.py)

Arithmetic is modelled over `ℚ`. The TF-IDF cosine similarity of
`_calculate_match_quality` is computed by sklearn/numpy (external); it is
supplied as an oracle outcome (`.error` for the internal `except` branch).
A cosine similarity of non-negative TF-IDF vectors, averaged, lies in
`[0, 1]`; theorems needing that bound take it as a hypothesis. -/

/-- Python's `round(x, 2)` on the model's exact rationals: round to an
integer number of hundredths. (Python rounds float halves to even; the
half-integer-hundredth cases are float-representation artifacts and no
theorem below depends on them.) -/
def round2 (q : ℚ) : ℚ := (round (q * 100) : ℚ) / 100

/-- `ConfidenceScoreService._calculate_match_quality`: neutral `0.5` when
there are no results, no query, no snippet-bearing results, or the
vectorization raises; otherwise the externally computed mean cosine
similarity `sim`. -/
def calculate_match_quality (sim : Except String ℚ) (search_results : List SResult)
    (query : String) : ℚ :=
  if search_results = [] ∨ query = "" then 1/2
  else
    let result_texts := search_results.filter (fun r => r.snippet.getD "" ≠ "")
    if result_texts = [] then 1/2
    else
      match sim with
      | .ok v => v
      | .error _ => 1/2

/-- `ConfidenceScoreService._calculate_domain_trust`: mean of the present
`trust_score` values normalized to `[0, 1]`, neutral `0.5` when the result
list is empty or no result carries a `trust_score` key. -/
def calculate_domain_trust (search_results : List SResult) : ℚ :=
  if search_results = [] then 1/2
  else
    let trust_scores := search_results.filterMap (fun r => r.trust_score)
    if trust_scores = [] then 1/2
    else ((trust_scores.sum : ℚ) / trust_scores.length) / 100

/-- `ConfidenceScoreService._get_confidence_grade`. -/
def get_confidence_grade (score : ℚ) : String :=
  if score ≥ 90 then "A+"
  else if score ≥ 80 then "A"
  else if score ≥ 70 then "B"
  else if score ≥ 60 then "C"
  else if score ≥ 50 then "D"
  else "F"

/-- `ConfidenceScoreService._get_reliability_level`. -/
def get_reliability_level (score : ℚ) : String :=
  if score ≥ 80 then "very_high"
  else if score ≥ 70 then "high"
  else if score ≥ 60 then "medium"
  else if score ≥ 40 then "low"
  else "very_low"

/-- Numeric rank of a letter grade, best = largest (`A+ > A > B > C > D > F`);
used to state monotonicity of the grade mapping. -/
def gradeRank (g : String) : ℕ :=
  if g = "A+" then 5 else if g = "A" then 4 else if g = "B" then 3
  else if g = "C" then 2 else if g = "D" then 1 else 0

/-- Numeric rank of a reliability label, best = largest. -/
def reliabilityRank (r : String) : ℕ :=
  if r = "very_high" then 4 else if r = "high" then 3
  else if r = "medium" then 2 else if r = "low" then 1 else 0

/-- The component breakdown of a `ConfidenceReport`. -/
structure ConfidenceComponents where
  ocr_confidence : ℚ
  match_quality : ℚ
  domain_trust : ℚ
  deriving Repr, DecidableEq

/-- The dict returned by `calculate_overall_confidence`. -/
structure ConfidenceReport where
  overall_confidence : ℚ
  components : ConfidenceComponents
  grade : String
  reliability : String
  deriving Repr, DecidableEq

/-- `ConfidenceScoreService.calculate_overall_confidence`: weighted sum of
the OCR (30%), match-quality (40%) and domain-trust (30%) components. The
outer `try/except` (fixed neutral report) is unreachable in the model: the
only failure sources are the external libraries, already captured by the
`sim` oracle inside `_calculate_match_quality`'s own `try/except`. -/
def calculate_overall_confidence (sim : Except String ℚ) (ocr_confidence : ℚ)
    (search_results : List SResult) (original_query : String) : ConfidenceReport :=
  let ocr_score := ocr_confidence / 100 * 30
  let match_score := calculate_match_quality sim search_results original_query * 40
  let trust_score := calculate_domain_trust search_results * 30
  let overall := ocr_score + match_score + trust_score
  { overall_confidence := round2 overall
    components :=
      { ocr_confidence := round2 ocr_score
        match_quality := round2 match_score
        domain_trust := round2 trust_score }
    grade := get_confidence_grade overall
    reliability := get_reliability_level overall }

/-! ### `TextProcessingService` (text_processing.py)

`langdetect` and `GoogleTranslator` are external; each single call's
behaviour is an `Except` oracle. The branch structure and, crucially,
exactly which keys each returned dict carries are translated from the
source: the translation-failure dicts carry no `translation_needed` key. -/

/-- The dict returned by `translate_to_english`. `original`, `translated`
and `success` are present in every branch; the remaining keys only in
some. -/
structure TranslationDict where
  success : Bool
  original : String
  translated : String
  error : Option String := none
  source_lang : Option String := none
  translation_needed : Option Bool := none
  deriving Repr, DecidableEq

/-- `TextProcessingService.detect_language` given the detector oracle:
`unknown` for empty/short input or a detector exception, else the detected
code. -/
def detect_language (detectO : Except String String) (text : String) : String :=
  if text = "" ∨ (strTrim text).length < 3 then "unknown"
  else
    match detectO with
    | .ok lang => lang
    | .error _ => "unknown"

/-- `TextProcessingService.translate_to_english` given the detector and
translator oracles (`transO` is the outcome of `translator.translate`). -/
def translate_to_english (detectO transO : Except String String) (text : String)
    (source_lang : String := "auto") : TranslationDict :=
  if text = "" then
    { success := false, error := some "Empty text", original := "", translated := "" }
  else
    let detected := detect_language detectO text
    if detected = "en" then
      { success := true, original := text, translated := text,
        source_lang := some "en", translation_needed := some false }
    else
      match transO with
      | .ok translated =>
        { success := true, original := text, translated := translated,
          source_lang := some detected, translation_needed := some true }
      | .error e =>
        -- translation failure: return the original text; note the absence
        -- of the `translation_needed` key (text_processing.py:115-123)
        { success := false, error := some e, original := text,
          translated := text, source_lang := some source_lang }

/-- `TextProcessingService.generate_search_queries`. -/
def generate_search_queries (text : String) (max_queries : ℕ := 3) : List String :=
  let third :=
    if strContains (strLower text) "jee" || strContains (strLower text) "neet" then
      text ++ " JEE solution step by step"
    else text ++ " solved example explanation"
  ([text, text ++ " solution", third]).take max_queries

/-! ### `QuestionSolverView` (views.py:37-317)

The orchestrator. Each collaborating service call's outcome is a field of
the request environment; the control flow, dict accesses and response
assembly are translated from the source. File storage, logging and
wall-clock timing are I/O without data flow into the response (the
`processing_time` metadata field is wall-clock and is omitted). The two
points where the source performs a raw dict access on a key that can be
absent — `translation_result['translation_needed']` and
`translation_result['source_lang']` during response assembly — are
modelled as `Except.error` (Python `KeyError`), which the `try/except` in
`post` converts to an HTTP-500 response. -/

/-- The dict returned by `ocr_service.extract_text_from_image` (every
return shape in ocr_service.py carries `success`, `text` and
`confidence`; `error` and `language` are branch-dependent). -/
structure OcrDict where
  success : Bool
  text : String := ""
  confidence : ℚ := 0
  error : Option String := none
  language : Option String := none
  deriving Repr, DecidableEq

/-- A video entry passed through from the YouTube service. -/
structure VideoHit where
  video_id : String := ""
  title : String := ""
  url : String := ""
  deriving Repr, DecidableEq

/-- The input branch taken by `post` (`'image' in request.FILES`, then
`'text' in request.data`, else neither). -/
inductive InputKind where
  | image (ocr : OcrDict)
  | text (query : String)
  | noInput
  deriving Repr, DecidableEq

/-- The request environment: the input, the caller's `max_results`, and
the outcome of each collaborator call made during this request.
`clean` stands for `text_processor.clean_text` (regex-based string
rewriting, no branching; modelled as an opaque string function since no
claim depends on its output), `search` for `search_service.search` (its
sub-calls catch every exception, so it always returns a dict), and the
three `Except` fields are the fan-out futures' outcomes as observed by
`future.result` (an `.error` covers both an exception inside the task and
a result timeout). -/
structure Env where
  input : InputKind
  maxResults : ℕ := 5
  clean : String → String
  detectO : Except String String
  transO : Except String String
  search : String → ℕ → SearchResp
  scrapeO : Except String (List FetchedPage)
  youtubeO : Except String (List VideoHit)
  confidenceO : Except String ConfidenceReport

/-- The `extracted_text` / `query` section of a success response. -/
structure QuerySection where
  original : String
  cleaned : String
  translated : Option String
  language : String
  deriving Repr, DecidableEq

/-- The `search_results` section of a success response. -/
structure SearchSection where
  total : ℕ
  trusted_count : ℕ
  results : List SResult
  deriving Repr, DecidableEq

/-- The `confidence` slot: either the scorer's report or the orchestrator's
fallback default `{'overall': 0, 'factors': {}}` kept when the confidence
future fails. -/
inductive ConfidenceSlot where
  | report (r : ConfidenceReport)
  | fallback
  deriving Repr, DecidableEq

/-- The `metadata` section. The source's `processing_time` (image pipeline
only) is wall-clock time and is omitted from the model. -/
structure MetadataSection where
  processing_steps : ℕ
  image_processed : Bool
  queries_generated : ℕ
  deriving Repr, DecidableEq

/-- The JSON body of a completed pipeline run: either the OCR-failure dict
`{'error': ..., 'details': ...}` (views.py:91-95) or the full success
dict. -/
inductive SolveBody where
  | ocrFailed (error details : String)
  | solved (pipeline : String) (query : QuerySection) (ocr_confidence : Option ℚ)
      (search_queries : List String) (search_results : SearchSection)
      (web_content : List FetchedPage) (confidence : ConfidenceSlot)
      (youtube_videos : List VideoHit) (metadata : MetadataSection)
  deriving Repr, DecidableEq

/-- An HTTP response body of the `post` handler. -/
inductive RespBody where
  | solve (body : SolveBody)
  | badRequest (error : String)
  | internalError (error details : String)
  deriving Repr, DecidableEq

/-- An HTTP response: status code and body. -/
structure HttpResponse where
  status : ℕ
  body : RespBody
  deriving Repr, DecidableEq

/-- Shared tail of both pipelines (views.py:121-132 / 232-241): run the
search on the primary query, keep its results only on success, then
deduplicate and trust-filter. -/
def searchAndFilter (env : Env) (primary_query : String) : FilteredResults :=
  let search_result := env.search primary_query (min env.maxResults 5)
  let all_results := if search_result.success then search_result.results else []
  let unique_results := deduplicate_results all_results
  filter_trusted_domains unique_results

/-- The fan-out stage (views.py:141-171 / 249-277): each future's outcome
with the source's per-future fallback on failure. -/
def scrapedContent (env : Env) : List FetchedPage :=
  match env.scrapeO with
  | .ok pages => pages
  | .error _ => []

/-- YouTube slot of the fan-out: the failure dict `{'videos': [], ...}`
contributes an empty video list to the response. -/
def youtubeVideos (env : Env) : List VideoHit :=
  match env.youtubeO with
  | .ok videos => videos
  | .error _ => []

/-- Confidence slot of the fan-out. -/
def confidenceData (env : Env) : ConfidenceSlot :=
  match env.confidenceO with
  | .ok report => .report report
  | .error _ => .fallback

/-- `QuestionSolverView._process_image` (views.py:75-208). An
`Except.error` models an uncaught Python exception escaping to `post`. -/
def process_image (env : Env) (ocr_result : OcrDict) : Except String SolveBody := do
  if ¬ocr_result.success then
    return .ocrFailed "OCR extraction failed" (ocr_result.error.getD "Unknown error")
  let extracted_text := ocr_result.text
  let ocr_confidence := ocr_result.confidence
  let cleaned_text := env.clean extracted_text
  let translation_result := translate_to_english env.detectO env.transO cleaned_text
  let query_text :=
    if ¬translation_result.success then cleaned_text
    else translation_result.translated
  let search_queries := generate_search_queries query_text 1
  let primary_query := search_queries.headD query_text
  let filtered_results := searchAndFilter env primary_query
  -- response assembly (views.py:178-203); the `translated` field performs
  -- the raw access `translation_result['translation_needed']`
  let translation_needed ←
    match translation_result.translation_needed with
    | some b => pure b
    | none => throw "KeyError: translation_needed"
  return .solved "image"
    { original := extracted_text
      cleaned := cleaned_text
      translated := if translation_needed then some query_text else none
      language := ocr_result.language.getD "unknown" }
    (some ocr_confidence)
    search_queries
    { total := filtered_results.results.length
      trusted_count := filtered_results.trusted_count
      results := filtered_results.results.take 10 }
    (scrapedContent env)
    (confidenceData env)
    (youtubeVideos env)
    { processing_steps := 8, image_processed := true,
      queries_generated := search_queries.length }

/-- `QuestionSolverView._process_text` (views.py:210-302). -/
def process_text (env : Env) (text_query : String) : Except String SolveBody := do
  let cleaned_text := env.clean text_query
  let translation_result := translate_to_english env.detectO env.transO cleaned_text
  let query_text := translation_result.translated
  let search_queries := generate_search_queries query_text 1
  let primary_query := search_queries.headD query_text
  let filtered_results := searchAndFilter env primary_query
  -- response assembly (views.py:279-302); raw accesses
  -- `translation_result['translation_needed']` then `['source_lang']`
  let translation_needed ←
    match translation_result.translation_needed with
    | some b => pure b
    | none => throw "KeyError: translation_needed"
  let source_lang ←
    match translation_result.source_lang with
    | some l => pure l
    | none => throw "KeyError: source_lang"
  return .solved "text"
    { original := text_query
      cleaned := cleaned_text
      translated := if translation_needed then some query_text else none
      language := source_lang }
    none
    search_queries
    { total := filtered_results.results.length
      trusted_count := filtered_results.trusted_count
      results := filtered_results.results.take 10 }
    (scrapedContent env)
    (confidenceData env)
    (youtubeVideos env)
    { processing_steps := 7, image_processed := false,
      queries_generated := search_queries.length }

/-- `QuestionSolverView.post` (views.py:45-73): dispatch on the input kind;
whatever dict `_process_image`/`_process_text` returns is wrapped in an
HTTP-200 response, an uncaught exception yields the HTTP-500
`{'error': 'Internal server error', 'details': ...}` response, and a
request with neither input yields HTTP 400. -/
def post (env : Env) : HttpResponse :=
  match env.input with
  | .image ocr =>
    match process_image env ocr with
    | .ok result => { status := 200, body := .solve result }
    | .error e => { status := 500, body := .internalError "Internal server error" e }
  | .text query =>
    match process_text env query with
    | .ok result => { status := 200, body := .solve result }
    | .error e => { status := 500, body := .internalError "Internal server error" e }
  | .noInput =>
    { status := 400, body := .badRequest "Please provide either an image or text query" }

/-- The request reaches the pipeline and its translation step fails:
an image input whose OCR succeeded, or a text input, such that
`translate_to_english` on the cleaned text reports `success=false`. -/
def translationFailsFor (env : Env) : Prop :=
  match env.input with
  | .image ocr => ocr.success = true
      ∧ (translate_to_english env.detectO env.transO (env.clean ocr.text)).success = false
  | .text q =>
      (translate_to_english env.detectO env.transO (env.clean q)).success = false
  | .noInput => False

/-- A concrete request environment whose image input fails OCR; the other
collaborator outcomes are arbitrary concrete values. -/
def envOcrFail : Env :=
  { input := .image { success := false, error := some "No text detected" }
    clean := id
    detectO := .ok "en"
    transO := .ok "irrelevant"
    search := fun _ _ => { success := false, results := [], error := some "no key" }
    scrapeO := .ok []
    youtubeO := .ok []
    confidenceO := .error "timed out" }

/-- A concrete text request whose translation call fails (non-English
input, translator unreachable). -/
def envTransFail : Env :=
  { input := .text "hola mundo"
    clean := id
    detectO := .ok "es"
    transO := .error "translation service unreachable"
    search := fun _ _ => { success := false, results := [], error := some "no key" }
    scrapeO := .ok []
    youtubeO := .ok []
    confidenceO := .error "timed out" }

/-! ## Theorems -/

/-! ### C5: trust scoring -/

/-- C5 (counterexample): the claim scores a domain 90 only when it is *in*
the curated trusted-domain list, and otherwise gives 40 when no TLD rule
or keyword applies; the code instead tests substring containment, so
`myquora.com.evil.net` (which merely contains `quora.com`) scores 90
where the claim's function mandates 40. -/
theorem trust_score_claim_counterexample :
    calculate_trust_score "myquora.com.evil.net" = 90
    ∧ claimTrustScore "myquora.com.evil.net" = 40 := by
  constructor <;> decide

/-- C5 (amended): the trust score is exactly: 90 if the lowercased domain
contains some curated trusted domain as a substring; else 80 if the domain
contains `.edu`; else 75 if it contains `.gov` or `.ac.`; else 60 if the
lowercased domain contains a learning-related keyword; else 40; and 0 for
an empty domain — all tests being substring containment, not list
membership or suffix matching. -/
theorem trust_score_characterization (d : String) :
    calculate_trust_score d =
      if d = "" then 0
      else if ∃ t ∈ trusted_domains, strContains (strLower d) t then 90
      else if strContains d ".edu" then 80
      else if strContains d ".gov" = true ∨ strContains d ".ac." = true then 75
      else if ∃ k ∈ learningKeywords, strContains (strLower d) k then 60
      else 40 := by
  simp only [calculate_trust_score, List.any_eq_true, Bool.or_eq_true]

/-! ### C7 and C10: deduplication -/

/-- Running `dedupGo` again over its own output (with the same starting
`seen` set) changes nothing: every kept entry has a fresh non-empty URL. -/
theorem dedupGo_idem (l : List SResult) :
    ∀ seen, dedupGo (dedupGo l seen) seen = dedupGo l seen := by
  induction l with
  | nil => intro seen; rfl
  | cons r rest ih =>
    intro seen
    by_cases h : r.url.getD "" ≠ "" ∧ r.url.getD "" ∉ seen
    · simp only [dedupGo, if_pos h]
      rw [ih (r.url.getD "" :: seen)]
    · simp only [dedupGo, if_neg h]
      exact ih seen

/-- C7: deduplication is idempotent — deduplicating twice equals
deduplicating once. -/
theorem deduplicate_results_idempotent (results : List SResult) :
    deduplicate_results (deduplicate_results results) = deduplicate_results results :=
  dedupGo_idem results []

/-- Every entry kept by `dedupGo` has a non-empty URL not in the starting
`seen` set. -/
theorem dedupGo_mem {l : List SResult} {seen : List String} {r : SResult}
    (h : r ∈ dedupGo l seen) : r.url.getD "" ≠ "" ∧ r.url.getD "" ∉ seen := by
  induction l generalizing seen with
  | nil => simp [dedupGo] at h
  | cons a rest ih =>
    by_cases ha : a.url.getD "" ≠ "" ∧ a.url.getD "" ∉ seen
    · rw [dedupGo, if_pos ha] at h
      rcases List.mem_cons.mp h with rfl | h'
      · exact ha
      · have := ih h'
        exact ⟨this.1, fun hm => this.2 (List.mem_cons_of_mem _ hm)⟩
    · rw [dedupGo, if_neg ha] at h
      exact ih h

/-- Entries whose URL is already in `seen` never survive `dedupGo`. -/
theorem dedupGo_filter_seen {u : String} {l : List SResult} {seen : List String}
    (hu : u ∈ seen) :
    (dedupGo l seen).filter (fun r => r.url.getD "" == u) = [] := by
  rw [List.filter_eq_nil_iff]
  intro r hr
  have := dedupGo_mem hr
  simp only [beq_iff_eq]
  intro he
  exact this.2 (he ▸ hu)

/-- For a URL `u` not yet seen and non-empty, the entries of
`dedupGo l seen` with URL `u` are exactly the first entry of `l` with URL
`u` (if any). -/
theorem dedupGo_filter_find {u : String} (hne : u ≠ "") :
    ∀ (l : List SResult) (seen : List String), u ∉ seen →
      (dedupGo l seen).filter (fun r => r.url.getD "" == u)
        = ((l.find? (fun r => r.url.getD "" == u)).toList) := by
  intro l
  induction l with
  | nil => intro seen _; rfl
  | cons a rest ih =>
    intro seen hseen
    by_cases ha : a.url.getD "" ≠ "" ∧ a.url.getD "" ∉ seen
    · rw [dedupGo, if_pos ha]
      by_cases hau : a.url.getD "" = u
      · rw [List.filter_cons_of_pos (by simpa using hau),
          List.find?_cons_of_pos _ (by simpa using hau)]
        rw [dedupGo_filter_seen (hau ▸ List.mem_cons_self _ _)]
        rfl
      · rw [List.filter_cons_of_neg (by simpa using hau),
          List.find?_cons_of_neg _ (by simpa using hau)]
        exact ih _ (by simp [hau, hseen, Ne.symm])
    · rw [dedupGo, if_neg ha]
      have hau : a.url.getD "" ≠ u := by
        intro he
        rcases not_and_or.mp ha with h1 | h2
        · exact hne (he ▸ not_not.mp (by simpa using h1))
        · exact hseen (he ▸ not_not.mp h2)
      rw [List.find?_cons_of_neg _ (by simpa using hau)]
      exact ih _ hseen

/-- C10: the orchestrator's deduplication keeps exactly the first
occurrence of each distinct non-empty URL and drops every entry whose URL
key is missing or empty. -/
theorem deduplicate_results_spec (results : List SResult) :
    (∀ r ∈ deduplicate_results results, r.url.getD "" ≠ "")
    ∧ (∀ u : String, u ≠ "" →
        (deduplicate_results results).filter (fun r => r.url.getD "" == u)
          = ((results.find? (fun r => r.url.getD "" == u)).toList)) := by
  constructor
  · intro r hr
    exact (dedupGo_mem hr).1
  · intro u hu
    exact dedupGo_filter_find hu results [] (List.not_mem_nil u)

/-- C10 (witness): on a concrete list — a duplicate URL, an entry with a
missing URL and an entry with an empty URL — the first occurrence of the
duplicated URL is the single survivor for that URL. -/
theorem deduplicate_results_spec_witness :
    (deduplicate_results
        [{ url := some "https://a.example", title := some "first" },
         { url := none }, { url := some "" },
         { url := some "https://a.example", title := some "second" }]).filter
      (fun r => r.url.getD "" == "https://a.example")
      = [{ url := some "https://a.example", title := some "first" }] := by
  have := (deduplicate_results_spec
      [{ url := some "https://a.example", title := some "first" },
       { url := none }, { url := some "" },
       { url := some "https://a.example", title := some "second" }]).2
      "https://a.example" (by decide)
  rw [this]
  rfl

/-! ### C6: trust filtering and ordering -/

/-- Inserting an element satisfying `p` whose trust score dominates every
`p`-satisfying element prepends it to the `p`-filtered view: the passed-over
elements all have strictly greater score, hence fail `p`. -/
theorem filter_orderedInsert_of_pos {p : SResult → Bool} {a : SResult}
    (hp : p a = true) (hgt : ∀ b, p b = true → trustGE a b) :
    ∀ l : List SResult,
      (l.orderedInsert trustGE a).filter p = a :: l.filter p := by
  intro l
  induction l with
  | nil => simp [List.orderedInsert, hp]
  | cons b t ih =>
    by_cases hab : trustGE a b
    · rw [List.orderedInsert, if_pos hab, List.filter_cons_of_pos hp]
    · have hpb : p b = false := by
        cases hb : p b
        · rfl
        · exact absurd (hgt b hb) hab
      rw [List.orderedInsert, if_neg hab, List.filter_cons_of_neg (by simp [hpb]),
        ih, List.filter_cons_of_neg (by simp [hpb])]

/-- Inserting an element that fails `p` leaves the `p`-filtered view
unchanged. -/
theorem filter_orderedInsert_of_neg {p : SResult → Bool} {a : SResult}
    (hp : p a = false) :
    ∀ l : List SResult,
      (l.orderedInsert trustGE a).filter p = l.filter p := by
  intro l
  induction l with
  | nil => simp [List.orderedInsert, hp]
  | cons b t ih =>
    by_cases hab : trustGE a b
    · rw [List.orderedInsert, if_pos hab, List.filter_cons_of_neg (by simp [hp])]
    · cases hb : p b
      · rw [List.orderedInsert, if_neg hab, List.filter_cons_of_neg (by simp [hb]),
          ih, List.filter_cons_of_neg (by simp [hb])]
      · rw [List.orderedInsert, if_neg hab, List.filter_cons_of_pos (by simp [hb]),
          ih, List.filter_cons_of_pos (by simp [hb])]

/-- Stability of the descending insertion sort: for each fixed trust score,
the sorted list presents the elements of that score in their original
order. -/
theorem filter_insertionSort_score (s : ℕ) :
    ∀ l : List SResult,
      (l.insertionSort trustGE).filter (fun r => scoreOf r == s)
        = l.filter (fun r => scoreOf r == s) := by
  intro l
  induction l with
  | nil => rfl
  | cons a t ih =>
    rw [List.insertionSort]
    by_cases ha : scoreOf a = s
    · rw [filter_orderedInsert_of_pos (by simpa using ha)
        (fun b hb => by
          have : scoreOf b = s := by simpa using hb
          exact le_of_eq (ha ▸ this)), ih,
        List.filter_cons_of_pos (by simpa using ha)]
    · rw [filter_orderedInsert_of_neg (by simpa using ha), ih,
        List.filter_cons_of_neg (by simpa using ha)]

/-- C6: `filter_trusted_domains` returns a list sorted descending by trust
score; ties keep their original relative order (for each score value, the
filtered view equals that of the scored input, in input order); every
output entry carries `is_trusted = (trust_score > 50)`; and `trusted_count`
counts exactly the entries with trust score above 50. -/
theorem filter_trusted_domains_spec (results : List SResult) :
    List.Sorted trustGE (filter_trusted_domains results).results
    ∧ (∀ s : ℕ,
        (filter_trusted_domains results).results.filter (fun r => scoreOf r == s)
          = (results.map scoreResult).filter (fun r => scoreOf r == s))
    ∧ (∀ r ∈ (filter_trusted_domains results).results,
        ∃ ts : ℕ, r.trust_score = some ts ∧ r.is_trusted = some (decide (ts > 50)))
    ∧ (filter_trusted_domains results).trusted_count
        = ((filter_trusted_domains results).results.countP
            (fun r => decide (50 < scoreOf r))) := by
  refine ⟨List.sorted_insertionSort trustGE _, fun s => filter_insertionSort_score s _,
    ?_, ?_⟩
  · intro r hr
    have hmem : r ∈ results.map scoreResult :=
      (List.perm_insertionSort trustGE (results.map scoreResult)).mem_iff.mp hr
    rcases List.mem_map.mp hmem with ⟨r₀, _, rfl⟩
    exact ⟨calculate_trust_score (r₀.domain.getD ""), rfl, rfl⟩
  · show ((results.map scoreResult).insertionSort trustGE).countP _
        = ((results.map scoreResult).insertionSort trustGE).countP _
    apply List.countP_congr
    intro r hr
    have hmem : r ∈ results.map scoreResult :=
      (List.perm_insertionSort trustGE (results.map scoreResult)).mem_iff.mp hr
    rcases List.mem_map.mp hmem with ⟨r₀, _, rfl⟩
    simp [scoreResult, scoreOf]

/-- C6 (witness): on a two-result list (one trusted, one untrusted domain)
the trusted entry is in the output with `trust_score = 90` and
`is_trusted = true`. -/
theorem filter_trusted_domains_spec_witness :
    ∃ ts : ℕ,
      ({ domain := some "stackoverflow.com", trust_score := some 90,
         is_trusted := some true } : SResult).trust_score = some ts
      ∧ ({ domain := some "stackoverflow.com", trust_score := some 90,
           is_trusted := some true } : SResult).is_trusted = some (decide (ts > 50)) :=
  (filter_trusted_domains_spec
      [{ domain := some "example.com" }, { domain := some "stackoverflow.com" }]).2.2.1
    { domain := some "stackoverflow.com", trust_score := some 90,
      is_trusted := some true }
    (by decide)

/-! ### C3: the content-fetch batch -/

/-- `fetch_url_content` reports exactly the URL it was asked to fetch. -/
theorem fetch_url_content_url (oracle : String → FetchOutcome) (url : String) :
    (fetch_url_content oracle url).url = url := by
  unfold fetch_url_content
  cases oracle url <;> rfl

/-- `fetch_url_content` either succeeds or carries an error message. -/
theorem fetch_url_content_success_or_error (oracle : String → FetchOutcome)
    (url : String) :
    (fetch_url_content oracle url).success = true
    ∨ (fetch_url_content oracle url).error.isSome := by
  unfold fetch_url_content
  cases oracle url
  · exact Or.inl rfl
  · exact Or.inr rfl
  · exact Or.inr rfl

/-- C3 (counterexample): with more URLs than `max_concurrent` the batch
does *not* return one entry per input URL — `urls[:max_concurrent]`
truncates the list, here 2 URLs with `max_concurrent = 1` yield 1 entry. -/
theorem fetch_multiple_urls_claim_counterexample :
    (fetch_multiple_urls (fun _ => .fetchError "connection timed out")
        ["https://a.example", "https://b.example"] 1).length = 1
    ∧ (["https://a.example", "https://b.example"] : List String).length = 2 := by
  constructor <;> rfl

/-- C3 (amended): the batch call is total and returns exactly one
`FetchedPage` per URL among the **first `max_concurrent` input URLs** (the
source truncates the list with `urls[:max_concurrent]`), in that order;
a fetch that fails or times out contributes an entry with `success=false`
and an `error` field rather than being dropped. -/
theorem fetch_multiple_urls_spec (oracle : String → FetchOutcome)
    (urls : List String) (max_concurrent : ℕ) :
    ((fetch_multiple_urls oracle urls max_concurrent).map (fun p => p.url)
      = urls.take max_concurrent)
    ∧ (∀ p ∈ fetch_multiple_urls oracle urls max_concurrent,
        p.success = true ∨ p.error.isSome) := by
  constructor
  · rw [fetch_multiple_urls, List.map_map]
    have : (fun p => FetchedPage.url p) ∘ fetch_url_content oracle = fun u => u := by
      funext u
      exact fetch_url_content_url oracle u
    rw [this]
    exact List.map_id _
  · intro p hp
    rcases List.mem_map.mp hp with ⟨u, _, rfl⟩
    exact fetch_url_content_success_or_error oracle u

/-- C3 (witness): a concrete three-URL batch where the second URL times
out — the output lists all three URLs in order, and the timed-out entry is
a `success=false` page carrying its error. -/
theorem fetch_multiple_urls_spec_witness :
    ((fetch_multiple_urls
        (fun u => if u = "https://b.example" then .futureError "timed out"
          else .page "T" "body") ["https://a.example", "https://b.example",
          "https://c.example"] 5).map (fun p => p.url)
      = ["https://a.example", "https://b.example", "https://c.example"].take 5)
    ∧ (({ success := false, url := "https://b.example",
          error := some "timed out" } : FetchedPage).success = true
        ∨ ({ success := false, url := "https://b.example",
             error := some "timed out" } : FetchedPage).error.isSome) :=
  ⟨(fetch_multiple_urls_spec _ _ 5).1,
    (fetch_multiple_urls_spec
        (fun u => if u = "https://b.example" then .futureError "timed out"
          else .page "T" "body") ["https://a.example", "https://b.example",
          "https://c.example"] 5).2
      { success := false, url := "https://b.example", error := some "timed out" }
      (by decide)⟩

/-! ### C4: the search-result cache -/

/-- C4: with an API key configured, `search_searchapi` (i) consults the
cache under `(query, count)` before any network use — on a hit it returns
the cached response, leaves the cache unchanged and performs no network
call — and (ii) on a miss followed by a successful network search it
stores the response under that key, so that (iii) an immediately following
call with the same `(query, count)` (whatever the network would then do)
returns that stored response without a network call. -/
theorem search_searchapi_cache_contract (extractDomain : String → String)
    (query : String) (count : ℕ) (cache : SearchCache) :
    (∀ (network : Except String (Option (List RawItem))) (cached : SearchResp),
      cache.get (cacheKey query count) = some cached →
      search_searchapi true extractDomain network query count cache
        = (cached, cache, false))
    ∧ (∀ items : Option (List RawItem),
        cache.get (cacheKey query count) = none →
        ((search_searchapi true extractDomain (.ok items) query count cache).2.2 = true
          ∧ (search_searchapi true extractDomain (.ok items) query count cache).2.1.get
              (cacheKey query count)
            = some (search_searchapi true extractDomain (.ok items) query count cache).1
          ∧ ∀ network₂ : Except String (Option (List RawItem)),
              search_searchapi true extractDomain network₂ query count
                  (search_searchapi true extractDomain (.ok items) query count cache).2.1
                = ((search_searchapi true extractDomain (.ok items) query count cache).1,
                   (search_searchapi true extractDomain (.ok items) query count cache).2.1,
                   false))) := by
  constructor
  · intro network cached hhit
    simp [search_searchapi, hhit]
  · intro items hmiss
    simp only [SearchCache.get] at hmiss
    refine ⟨by simp [search_searchapi, SearchCache.get, hmiss],
      by simp [search_searchapi, SearchCache.get, SearchCache.set, hmiss], ?_⟩
    intro network₂
    simp [search_searchapi, SearchCache.get, SearchCache.set, hmiss]

/-- C4 (witness): a concrete miss-then-hit round trip — after searching
`"gold symbol"` with `count = 5` against a one-item network response, the
result is cached and a second call returns it with no network use. -/
theorem search_searchapi_cache_contract_witness :
    ((search_searchapi true (fun _ => "example.com")
        (.ok (some [{ title := some "Au", link := some "https://example.com/au" }]))
        "gold symbol" 5 (fun _ => none)).2.2 = true
      ∧ (search_searchapi true (fun _ => "example.com")
          (.ok (some [{ title := some "Au", link := some "https://example.com/au" }]))
          "gold symbol" 5 (fun _ => none)).2.1.get (cacheKey "gold symbol" 5)
        = some (search_searchapi true (fun _ => "example.com")
            (.ok (some [{ title := some "Au", link := some "https://example.com/au" }]))
            "gold symbol" 5 (fun _ => none)).1
      ∧ ∀ network₂ : Except String (Option (List RawItem)),
          search_searchapi true (fun _ => "example.com") network₂ "gold symbol" 5
              (search_searchapi true (fun _ => "example.com")
                (.ok (some [{ title := some "Au", link := some "https://example.com/au" }]))
                "gold symbol" 5 (fun _ => none)).2.1
            = ((search_searchapi true (fun _ => "example.com")
                  (.ok (some [{ title := some "Au", link := some "https://example.com/au" }]))
                  "gold symbol" 5 (fun _ => none)).1,
               (search_searchapi true (fun _ => "example.com")
                  (.ok (some [{ title := some "Au", link := some "https://example.com/au" }]))
                  "gold symbol" 5 (fun _ => none)).2.1,
               false)) :=
  (search_searchapi_cache_contract (fun _ => "example.com") "gold symbol" 5
      (fun _ => none)).2
    (some [{ title := some "Au", link := some "https://example.com/au" }]) rfl

/-! ### C8: confidence on an empty result set -/

/-- C8 (counterexample): `overall_confidence` is the rounded
(`round(x, 2)`) composite, so for an OCR confidence with two decimals —
`87.33`, as produced by the OCR service's `round(avg_confidence*100, 2)` —
the returned value `61.2` differs from `ocr_component + 35 = 61.199`;
the claimed equality does not hold for *every* `ocr_confidence` value. -/
theorem confidence_empty_rounding_counterexample :
    (calculate_overall_confidence (.ok 0) (8733/100) [] "q").overall_confidence
      ≠ (8733/100 : ℚ) / 100 * 30 + 35 := by
  norm_num [calculate_overall_confidence, calculate_match_quality,
    calculate_domain_trust, round2, round_eq]

/-- C8 (amended): with an empty search-result list the match component is
exactly `0.5*40 = 20` and the trust component exactly `0.5*30 = 15`, and
`overall_confidence = round₂(ocr_component + 35)` where
`ocr_component = (ocr_confidence/100)*30`; the rounding is exact — the
claimed plain equality holds — whenever `ocr_confidence` is an integer. -/
theorem confidence_empty_results (sim : Except String ℚ) (q : ℚ) (query : String) :
    ((calculate_overall_confidence sim q [] query).components.match_quality = 20)
    ∧ ((calculate_overall_confidence sim q [] query).components.domain_trust = 15)
    ∧ ((calculate_overall_confidence sim q [] query).overall_confidence
        = round2 (q / 100 * 30 + 35))
    ∧ (∀ n : ℤ, q = (n : ℚ) →
        (calculate_overall_confidence sim q [] query).overall_confidence
          = q / 100 * 30 + 35) := by
  have hmq : calculate_match_quality sim [] query = 1/2 := by
    simp [calculate_match_quality]
  have hdt : calculate_domain_trust [] = 1/2 := by
    simp [calculate_domain_trust]
  refine ⟨?_, ?_, ?_, ?_⟩
  · simp only [calculate_overall_confidence, hmq, hdt]
    norm_num [round2, round_eq]
  · simp only [calculate_overall_confidence, hmq, hdt]
    norm_num [round2, round_eq]
  · simp only [calculate_overall_confidence, hmq, hdt]
    congr 1
    ring
  · rintro n rfl
    simp only [calculate_overall_confidence, hmq, hdt]
    have h1 : ((n : ℚ) / 100 * 30 + 1 / 2 * 40 + 1 / 2 * 30) * 100
        = ((30 * n + 3500 : ℤ) : ℚ) := by
      push_cast
      ring
    rw [round2, h1, round_intCast]
    push_cast
    ring

/-- C8 (witness): at `ocr_confidence = 80` (an integer) the overall
confidence equals `ocr_component + 35 = 59` exactly. -/
theorem confidence_empty_results_witness :
    (calculate_overall_confidence (.ok 0) 80 [] "x").overall_confidence
      = 80 / 100 * 30 + 35 :=
  (confidence_empty_results (.ok 0) 80 "x").2.2.2 80 (by norm_num)

/-! ### C9: confidence bounds and monotone grade mappings -/

/-- `round` is monotone on `ℚ`. -/
theorem round_le_round_of_le {x y : ℚ} (h : x ≤ y) : round x ≤ round y := by
  rw [round_eq, round_eq]
  exact Int.floor_le_floor (by linarith)

/-- `round2` maps `[0, 100]` into `[0, 100]`. -/
theorem round2_mem_Icc {x : ℚ} (h0 : 0 ≤ x) (h1 : x ≤ 100) :
    0 ≤ round2 x ∧ round2 x ≤ 100 := by
  have hlo : (0 : ℤ) ≤ round (x * 100) := by
    have := round_le_round_of_le (by linarith : (0 : ℚ) ≤ x * 100)
    rwa [round_zero] at this
  have hhi : round (x * 100) ≤ 10000 := by
    have := round_le_round_of_le (show x * 100 ≤ ((10000 : ℤ) : ℚ) by push_cast; linarith)
    rwa [round_intCast] at this
  constructor
  · rw [round2]
    positivity
  · rw [round2, div_le_iff₀ (by norm_num : (0:ℚ) < 100)]
    calc ((round (x * 100) : ℤ) : ℚ) ≤ ((10000 : ℤ) : ℚ) := by exact_mod_cast hhi
    _ = 100 * 100 := by norm_num

/-- The match-quality value lies in `[0, 1]` whenever the external
similarity (a mean cosine similarity of non-negative TF-IDF vectors)
does. -/
theorem match_quality_bounds (sim : Except String ℚ) (rs : List SResult)
    (query : String) (hsim : ∀ v : ℚ, sim = .ok v → 0 ≤ v ∧ v ≤ 1) :
    0 ≤ calculate_match_quality sim rs query
    ∧ calculate_match_quality sim rs query ≤ 1 := by
  simp only [calculate_match_quality]
  split_ifs
  · norm_num
  · norm_num
  · cases hs : sim with
    | ok v => exact hsim v hs
    | error e => norm_num

/-- The domain-trust value lies in `[0, 1]` whenever every present
`trust_score` is at most 100. -/
theorem domain_trust_bounds (rs : List SResult)
    (htrust : ∀ r ∈ rs, ∀ s : ℕ, r.trust_score = some s → s ≤ 100) :
    0 ≤ calculate_domain_trust rs ∧ calculate_domain_trust rs ≤ 1 := by
  simp only [calculate_domain_trust]
  split_ifs with h1 h2
  · norm_num
  · norm_num
  · set ts := rs.filterMap (fun r => r.trust_score) with hts
    have hlen : 0 < ts.length := List.length_pos.mpr h2
    have hbound : ∀ s ∈ ts, s ≤ 100 := by
      intro s hs
      rcases List.mem_filterMap.mp hs with ⟨r, hr, hrs⟩
      exact htrust r hr s hrs
    have hsum : ts.sum ≤ ts.length * 100 := by
      have := List.sum_le_card_nsmul ts 100 hbound
      simpa [smul_eq_mul] using this
    constructor
    · positivity
    · rw [div_le_one (by norm_num : (0:ℚ) < 100),
        div_le_iff₀ (by exact_mod_cast hlen : (0:ℚ) < (ts.length : ℚ))]
      calc ((ts.sum : ℕ) : ℚ) ≤ ((ts.length * 100 : ℕ) : ℚ) := by exact_mod_cast hsum
      _ = 100 * (ts.length : ℚ) := by push_cast; ring

/-- The grade mapping is monotone: a higher score never yields a lower
letter grade. -/
theorem gradeRank_mono {s t : ℚ} (h : s ≤ t) :
    gradeRank (get_confidence_grade s) ≤ gradeRank (get_confidence_grade t) := by
  unfold get_confidence_grade
  split_ifs <;> simp [gradeRank] <;> linarith

/-- The reliability mapping is monotone: a higher score never yields a
lower reliability level. -/
theorem reliabilityRank_mono {s t : ℚ} (h : s ≤ t) :
    reliabilityRank (get_reliability_level s)
      ≤ reliabilityRank (get_reliability_level t) := by
  unfold get_reliability_level
  split_ifs <;> simp [reliabilityRank] <;> linarith

/-- C9: for OCR confidence in `[0, 100]`, trust scores in `[0, 100]` and a
bounded similarity, the overall confidence lies in `[0, 100]`; and the
grade and reliability mappings are monotone in the score. -/
theorem confidence_bounds_and_monotone (sim : Except String ℚ) (ocr : ℚ)
    (results : List SResult) (query : String)
    (hocr0 : 0 ≤ ocr) (hocr1 : ocr ≤ 100)
    (htrust : ∀ r ∈ results, ∀ s : ℕ, r.trust_score = some s → s ≤ 100)
    (hsim : ∀ v : ℚ, sim = .ok v → 0 ≤ v ∧ v ≤ 1) :
    (0 ≤ (calculate_overall_confidence sim ocr results query).overall_confidence
      ∧ (calculate_overall_confidence sim ocr results query).overall_confidence ≤ 100)
    ∧ (∀ s t : ℚ, s ≤ t →
        gradeRank (get_confidence_grade s) ≤ gradeRank (get_confidence_grade t))
    ∧ (∀ s t : ℚ, s ≤ t →
        reliabilityRank (get_reliability_level s)
          ≤ reliabilityRank (get_reliability_level t)) := by
  refine ⟨?_, fun s t h => gradeRank_mono h, fun s t h => reliabilityRank_mono h⟩
  obtain ⟨hmq0, hmq1⟩ := match_quality_bounds sim results query hsim
  obtain ⟨hdt0, hdt1⟩ := domain_trust_bounds results htrust
  have hm40 : calculate_match_quality sim results query * 40 ≤ 40 := by linarith
  have hm0 : 0 ≤ calculate_match_quality sim results query * 40 := by linarith
  have hd30 : calculate_domain_trust results * 30 ≤ 30 := by linarith
  have hd0 : 0 ≤ calculate_domain_trust results * 30 := by linarith
  have hov0 : 0 ≤ ocr / 100 * 30 + calculate_match_quality sim results query * 40
      + calculate_domain_trust results * 30 := by linarith
  have hov1 : ocr / 100 * 30 + calculate_match_quality sim results query * 40
      + calculate_domain_trust results * 30 ≤ 100 := by linarith
  simpa [calculate_overall_confidence] using round2_mem_Icc hov0 hov1

/-- C9 (witness): concrete instance at OCR confidence 50, empty result
set, empty query and zero similarity. -/
theorem confidence_bounds_and_monotone_witness :
    ((0 ≤ (calculate_overall_confidence (.ok 0) 50 [] "").overall_confidence
      ∧ (calculate_overall_confidence (.ok 0) 50 [] "").overall_confidence ≤ 100))
    ∧ (∀ s t : ℚ, s ≤ t →
        gradeRank (get_confidence_grade s) ≤ gradeRank (get_confidence_grade t))
    ∧ (∀ s t : ℚ, s ≤ t →
        reliabilityRank (get_reliability_level s)
          ≤ reliabilityRank (get_reliability_level t)) :=
  confidence_bounds_and_monotone (.ok 0) 50 [] "" (by norm_num) (by norm_num)
    (fun r hr => absurd hr (List.not_mem_nil r))
    (fun v hv => by cases hv; norm_num)

/-! ### C1 and C2: the `post` handler -/

/-- When `translate_to_english` fails, the returned dict carries no
`translation_needed` key (text_processing.py:115-123 builds the failure
dict without it). -/
theorem translate_failure_no_needed (d t : Except String String) (txt sl : String)
    (h : (translate_to_english d t txt sl).success = false) :
    (translate_to_english d t txt sl).translation_needed = none := by
  by_cases h1 : txt = ""
  · simp [translate_to_english, h1]
  · by_cases h2 : detect_language d txt = "en"
    · exfalso
      simp [translate_to_english, h1, h2] at h
    · cases ht : t with
      | ok v =>
        exfalso
        simp [translate_to_english, h1, h2, ht] at h
      | error e =>
        simp [translate_to_english, h1, h2, ht]

/-- C1 (counterexample): on OCR total failure the handler returns the
`{error, details}` dict with HTTP status **200** — not a server-error
(5xx) status as claimed: `post` wraps whatever `_process_image` returns in
`Response(result, status=HTTP_200_OK)` (views.py:66). -/
theorem post_ocr_failure_counterexample :
    (post envOcrFail).status = 200
    ∧ (post envOcrFail).body
        = .solve (.ocrFailed "OCR extraction failed" "No text detected")
    ∧ ¬(500 ≤ (post envOcrFail).status) := by
  refine ⟨rfl, rfl, ?_⟩
  decide

/-- C1 (amended): for every image request whose OCR reports
`success=false`, the handler returns the `{error, details}` body — the
only deliberately returned error body of the pipeline — but with HTTP
status 200; 5xx statuses arise only from uncaught exceptions. -/
theorem post_ocr_failure (env : Env) (ocr : OcrDict)
    (hin : env.input = .image ocr) (hfail : ocr.success = false) :
    post env =
      { status := 200,
        body := .solve (.ocrFailed "OCR extraction failed"
          (ocr.error.getD "Unknown error")) } := by
  simp [post, hin, process_image, hfail, pure, Except.pure]

/-- C1 (witness): the amended theorem applied to the concrete failing
environment. -/
theorem post_ocr_failure_witness :
    post envOcrFail =
      { status := 200,
        body := .solve (.ocrFailed "OCR extraction failed" "No text detected") } :=
  post_ocr_failure envOcrFail { success := false, error := some "No text detected" }
    rfl rfl

/-- C2 (code bug): whenever the translation step fails — image or text
pipeline — the handler returns an HTTP-500 error response, not a
best-effort success: the failure dict carries no `translation_needed`
key, and response assembly performs the raw access
`translation_result['translation_needed']`, raising `KeyError`
(views.py:184 / views.py:285), which `post` converts to the 500
`{'error': 'Internal server error', ...}` response. -/
theorem translation_failure_yields_500 (env : Env) (h : translationFailsFor env) :
    post env =
      { status := 500,
        body := .internalError "Internal server error" "KeyError: translation_needed" } := by
  cases hin : env.input with
  | image ocr =>
    simp only [translationFailsFor, hin] at h
    obtain ⟨hs, ht⟩ := h
    have hnone := translate_failure_no_needed _ _ _ _ ht
    simp [post, hin, process_image, hs, hnone, pure, Except.pure, bind,
      Except.bind, Functor.map, Except.map]
  | text q =>
    simp only [translationFailsFor, hin] at h
    have hnone := translate_failure_no_needed _ _ _ _ h
    simp [post, hin, process_text, hnone, pure, Except.pure, bind,
      Except.bind, Functor.map, Except.map]
  | noInput =>
    simp [translationFailsFor, hin] at h

/-- C2 (witness): the concrete failing-translation request yields the 500
response. -/
theorem translation_failure_yields_500_witness :
    post envTransFail =
      { status := 500,
        body := .internalError "Internal server error" "KeyError: translation_needed" } :=
  translation_failure_yields_500 envTransFail rfl

end QSolver
